import Mathlib

/-!
Verification of a FastAPI notification backend (`src/main.py`).

The HTTP handlers are embedded shallowly: the document database is a `Store`
value (two collections as lists, plus a counter generating document
identifiers), the global connection handle is `Option Store` (the `None`
sentinel of the persistence gateway), and each handler is a pure function
from the request and the store to an `Except`-style HTTP outcome and the
resulting store.  SHA-256 and the UTF-8 encoding used by `_hash_password`
are implemented concretely over `Nat` byte lists.
-/

namespace Backend

/-! ### SHA-256 over byte lists (`hashlib.sha256(...).hexdigest()`) -/

/-- Modulus for 32-bit words. -/
def mask32 : Nat := 4294967296

/-- Addition modulo 2^32. -/
def add32 (a b : Nat) : Nat := (a + b) % mask32

/-- Right rotation of a 32-bit word. -/
def rotr32 (n x : Nat) : Nat := ((x >>> n) ||| (x <<< (32 - n))) % mask32

/-- Bitwise complement of a 32-bit word. -/
def not32 (x : Nat) : Nat := x ^^^ 4294967295

/-- SHA-256 big sigma 0. -/
def bigS0 (x : Nat) : Nat := rotr32 2 x ^^^ rotr32 13 x ^^^ rotr32 22 x

/-- SHA-256 big sigma 1. -/
def bigS1 (x : Nat) : Nat := rotr32 6 x ^^^ rotr32 11 x ^^^ rotr32 25 x

/-- SHA-256 small sigma 0. -/
def smallS0 (x : Nat) : Nat := rotr32 7 x ^^^ rotr32 18 x ^^^ (x >>> 3)

/-- SHA-256 small sigma 1. -/
def smallS1 (x : Nat) : Nat := rotr32 17 x ^^^ rotr32 19 x ^^^ (x >>> 10)

/-- SHA-256 choice function. -/
def ch32 (e f g : Nat) : Nat := (e &&& f) ^^^ (not32 e &&& g)

/-- SHA-256 majority function. -/
def maj32 (a b c : Nat) : Nat := (a &&& b) ^^^ (a &&& c) ^^^ (b &&& c)

/-- The 64 SHA-256 round constants of FIPS 180-4, written in decimal. -/
def sha256K : List Nat :=
  [1116352408, 1899447441, 3049323471, 3921009573, 961987163,
   1508970993, 2453635748, 2870763221, 3624381080, 310598401,
   607225278, 1426881987, 1925078388, 2162078206, 2614888103,
   3248222580, 3835390401, 4022224774, 264347078, 604807628,
   770255983, 1249150122, 1555081692, 1996064986, 2554220882,
   2821834349, 2952996808, 3210313671, 3336571891, 3584528711,
   113926993, 338241895, 666307205, 773529912, 1294757372,
   1396182291, 1695183700, 1986661051, 2177026350, 2456956037,
   2730485921, 2820302411, 3259730800, 3345764771, 3516065817,
   3600352804, 4094571909, 275423344, 430227734, 506948616,
   659060556, 883997877, 958139571, 1322822218, 1537002063,
   1747873779, 1955562222, 2024104815, 2227730452, 2361852424,
   2428436474, 2756734187, 3204031479, 3329325298]

/-- The SHA-256 initial hash value of FIPS 180-4, written in decimal. -/
def sha256H0 : List Nat :=
  [1779033703, 3144134277, 1013904242, 2773480762,
   1359893119, 2600822924, 528734635, 1541459225]

/-- Pad a byte message to a multiple of 64 bytes: a 0x80 byte, zeros, and the
bit length as 8 big-endian bytes. -/
def padMessage (msg : List Nat) : List Nat :=
  let bitLen := 8 * msg.length
  let padLen := (119 - msg.length % 64) % 64
  msg ++ [0x80] ++ List.replicate padLen 0 ++
    (List.range 8).map (fun i => (bitLen >>> (56 - 8 * i)) % 256)

/-- Split a byte list into 64-byte blocks; the fuel (at least the list
length) makes the recursion structural. -/
def chunksAux : Nat → List Nat → List (List Nat)
  | _, [] => []
  | 0, _ :: _ => []
  | fuel + 1, x :: xs => ((x :: xs).take 64) :: chunksAux fuel ((x :: xs).drop 64)

/-- Split a byte list into 64-byte blocks. -/
def chunks64 (l : List Nat) : List (List Nat) :=
  chunksAux l.length l

/-- The 16 big-endian 32-bit words of a 64-byte block. -/
def wordsOfBlock (block : List Nat) : List Nat :=
  (List.range 16).map (fun i =>
    block.getD (4 * i) 0 * 16777216 + block.getD (4 * i + 1) 0 * 65536 +
    block.getD (4 * i + 2) 0 * 256 + block.getD (4 * i + 3) 0)

/-- Extend the 16 message words to the 64-entry message schedule. -/
def extendWords (ws16 : List Nat) : List Nat :=
  (List.range 48).foldl
    (fun ws _ =>
      ws ++ [add32
        (add32 (ws.getD (ws.length - 16) 0) (smallS0 (ws.getD (ws.length - 15) 0)))
        (add32 (ws.getD (ws.length - 7) 0) (smallS1 (ws.getD (ws.length - 2) 0)))])
    ws16

/-- Working state of the SHA-256 compression loop. -/
structure Sha256State where
  a : Nat
  b : Nat
  c : Nat
  d : Nat
  e : Nat
  f : Nat
  g : Nat
  h : Nat
deriving Repr, DecidableEq

/-- One SHA-256 compression round with constant `k` and schedule word `w`. -/
def sha256Round (st : Sha256State) (kw : Nat × Nat) : Sha256State :=
  let t1 := add32 (add32 (add32 st.h (bigS1 st.e)) (add32 (ch32 st.e st.f st.g) kw.1)) kw.2
  let t2 := add32 (bigS0 st.a) (maj32 st.a st.b st.c)
  ⟨add32 t1 t2, st.a, st.b, st.c, add32 st.d t1, st.e, st.f, st.g⟩

/-- Compress one 64-byte block into the running 8-word hash. -/
def compressBlock (hs : List Nat) (block : List Nat) : List Nat :=
  let ws := extendWords (wordsOfBlock block)
  let st0 : Sha256State :=
    ⟨hs.getD 0 0, hs.getD 1 0, hs.getD 2 0, hs.getD 3 0,
     hs.getD 4 0, hs.getD 5 0, hs.getD 6 0, hs.getD 7 0⟩
  let st := (sha256K.zip ws).foldl sha256Round st0
  [add32 (hs.getD 0 0) st.a, add32 (hs.getD 1 0) st.b, add32 (hs.getD 2 0) st.c,
   add32 (hs.getD 3 0) st.d, add32 (hs.getD 4 0) st.e, add32 (hs.getD 5 0) st.f,
   add32 (hs.getD 6 0) st.g, add32 (hs.getD 7 0) st.h]

/-- SHA-256 of a byte message, as the 8-word digest. -/
def sha256Words (msg : List Nat) : List Nat :=
  (chunks64 (padMessage msg)).foldl compressBlock sha256H0

/-- Lower-case hexadecimal digit. -/
def hexChar (n : Nat) : Char :=
  if n < 10 then Char.ofNat (48 + n) else Char.ofNat (87 + n)

/-- Eight hex characters of one 32-bit word, most significant first. -/
def wordHex (w : Nat) : List Char :=
  (List.range 8).map (fun i => hexChar ((w >>> (28 - 4 * i)) % 16))

/-- SHA-256 hex digest of a byte message, as produced by `hexdigest()`. -/
def sha256hex (msg : List Nat) : String :=
  String.mk ((sha256Words msg).foldr (fun w acc => wordHex w ++ acc) [])

/-- UTF-8 encoding of one character, as 1-4 bytes. -/
def utf8EncodeChar (c : Char) : List Nat :=
  let n := c.toNat
  if n < 0x80 then [n]
  else if n < 0x800 then [0xC0 ||| (n >>> 6), 0x80 ||| (n &&& 0x3F)]
  else if n < 0x10000 then
    [0xE0 ||| (n >>> 12), 0x80 ||| ((n >>> 6) &&& 0x3F), 0x80 ||| (n &&& 0x3F)]
  else
    [0xF0 ||| (n >>> 18), 0x80 ||| ((n >>> 12) &&& 0x3F),
     0x80 ||| ((n >>> 6) &&& 0x3F), 0x80 ||| (n &&& 0x3F)]

/-- UTF-8 encoding of a string (`pw.encode("utf-8")`). -/
def utf8Encode (s : String) : List Nat :=
  s.data.foldr (fun c acc => utf8EncodeChar c ++ acc) []

/-- `_hash_password` from `src/main.py`: SHA-256 hex digest of the UTF-8
encoded password. -/
def hash_password (pw : String) : String :=
  sha256hex (utf8Encode pw)

set_option maxRecDepth 4096 in
/-- FIPS 180-4 test vector: the digest of `"abc"` anchors the SHA-256
implementation against `hashlib`. -/
theorem sha256hex_abc :
    sha256hex (utf8Encode "abc") =
      "ba7816bf8f01cfea414140de5dae2223b00361a396177a9cb410ff61f20015ad" := by
  decide

/-! ### Data model: the two persisted collections

Stored documents are schema-flexible; fields the handlers read with
`.get(..., default)` are `Option`-valued.  User documents are only ever
created by `register`, which always writes `name`, `email` and
`password_hash`, so those fields are kept mandatory; `avatar_url` is
nullable.  Notification documents keep `title`, `body`, `read` and
`created_at` optional, matching the defaulting reads in
`list_notifications`. -/

/-- A document of the `authuser` collection. -/
structure UserDoc where
  oid : Nat
  name : String
  email : String
  password_hash : String
  avatar_url : Option String
deriving Repr, DecidableEq

/-- A document of the `notification` collection.  Timestamps are modelled as
naturals ordered like the datastore orders its timestamps. -/
structure NotificationDoc where
  oid : Nat
  user_email : String
  title : Option String
  body : Option String
  read : Option Bool
  created_at : Option Nat
deriving Repr, DecidableEq

/-- The document database: both collections in insertion order, plus the
counter from which `create_document` generates fresh identifiers.
Modelled from the spec: the persistence gateway (`database.py`, not in
`src/`) returns "the generated identifier as text" for each insert and
assigns `created_at` "at insert time"; here identifiers are drawn from
`nextId` and rendered with `toString`. -/
structure Store where
  nextId : Nat
  authuser : List UserDoc
  notification : List NotificationDoc
deriving Repr, DecidableEq

/-- An `HTTPException` outcome: status code and detail string. -/
structure HTTPError where
  status : Nat
  detail : String
deriving Repr, DecidableEq

/-- Request body of `POST /auth/register`.  `email` is the string left after
pydantic `EmailStr` validation accepted it. -/
structure RegisterRequest where
  name : String
  email : String
  password : String
deriving Repr, DecidableEq

/-- Request body of `POST /auth/login`. -/
structure LoginRequest where
  email : String
  password : String
deriving Repr, DecidableEq

/-- Response model of both auth endpoints. -/
structure AuthResponse where
  name : String
  email : String
  avatar_url : Option String
deriving Repr, DecidableEq

/-- Request body of `POST /notifications`. -/
structure CreateNotificationRequest where
  email : String
  title : String
  body : String
deriving Repr, DecidableEq

/-- Request body of `POST /notifications/mark-all-read`. -/
structure MarkAllReadRequest where
  email : String
deriving Repr, DecidableEq

/-- One serialized item of the notification listing. -/
structure NotificationItem where
  id : String
  title : String
  body : String
  read : Bool
  created_at : Option String
deriving Repr, DecidableEq

/-- Response of `POST /notifications`: `{id, status: "created"}`. -/
structure CreateNotificationResponse where
  id : String
  status : String
deriving Repr, DecidableEq

/-- Response of `POST /notifications/mark-all-read`: `{status: "ok"}`. -/
structure StatusResponse where
  status : String
deriving Repr, DecidableEq

/-! ### Auth handlers -/

/-- `POST /auth/register` from `src/main.py`: 500 when the handle is absent,
400 when `find_one({"email": ...})` hits an existing user, otherwise insert
`{name, email, password_hash, avatar_url: None}` and echo the input. -/
def register (db : Option Store) (data : RegisterRequest) :
    Except HTTPError AuthResponse × Option Store :=
  match db with
  | none => (.error ⟨500, "Database not available"⟩, none)
  | some st =>
    match st.authuser.find? (fun u => u.email == data.email) with
    | some _ => (.error ⟨400, "Email already registered"⟩, some st)
    | none =>
      let doc : UserDoc :=
        ⟨st.nextId, data.name, data.email, hash_password data.password, none⟩
      (.ok ⟨data.name, data.email, none⟩,
       some ⟨st.nextId + 1, st.authuser ++ [doc], st.notification⟩)

/-- `POST /auth/login` from `src/main.py`: 500 when the handle is absent, 401
when no user matches the email or the stored hash differs from the hash of
the supplied password, otherwise the stored record's fields. -/
def login (db : Option Store) (data : LoginRequest) :
    Except HTTPError AuthResponse :=
  match db with
  | none => .error ⟨500, "Database not available"⟩
  | some st =>
    match st.authuser.find? (fun u => u.email == data.email) with
    | none => .error ⟨401, "Invalid credentials"⟩
    | some u =>
      if u.password_hash == hash_password data.password then
        .ok ⟨u.name, u.email, u.avatar_url⟩
      else
        .error ⟨401, "Invalid credentials"⟩

/-! ### Notification handlers -/

/-- `POST /notifications` from `src/main.py`: 500 when the handle is absent,
404 when no user has the email, otherwise insert
`{user_email, title, body, read: False}`.  `now` is the instant of the
insert; the datastore stamps it into `created_at` (spec §3). -/
def create_notification (db : Option Store) (now : Nat)
    (data : CreateNotificationRequest) :
    Except HTTPError CreateNotificationResponse × Option Store :=
  match db with
  | none => (.error ⟨500, "Database not available"⟩, none)
  | some st =>
    match st.authuser.find? (fun u => u.email == data.email) with
    | none => (.error ⟨404, "User not found"⟩, some st)
    | some _ =>
      let doc : NotificationDoc :=
        ⟨st.nextId, data.email, some data.title, some data.body, some false, some now⟩
      (.ok ⟨toString st.nextId, "created"⟩,
       some ⟨st.nextId + 1, st.authuser, st.notification ++ [doc]⟩)

/-- BSON-style comparison on optional timestamps: an absent or null
`created_at` sorts below every present timestamp. -/
def createdAtLe (a b : Option Nat) : Bool :=
  match a, b with
  | none, _ => true
  | some _, none => false
  | some m, some n => m ≤ n

/-- The descending sort order of `.sort("created_at", -1)`. -/
def notifGE (d1 d2 : NotificationDoc) : Prop :=
  createdAtLe d2.created_at d1.created_at = true

instance : DecidableRel notifGE := fun d1 d2 =>
  inferInstanceAs (Decidable (createdAtLe d2.created_at d1.created_at = true))

instance : IsTotal NotificationDoc notifGE where
  total d1 d2 := by
    unfold notifGE createdAtLe
    rcases d1.created_at with _ | m <;> rcases d2.created_at with _ | n <;> (simp; try omega)

instance : IsTrans NotificationDoc notifGE where
  trans d1 d2 d3 := by
    unfold notifGE createdAtLe
    rcases d1.created_at with _ | m <;> rcases d2.created_at with _ | n <;>
      rcases d3.created_at with _ | p <;> (simp; try omega)

/-- The documents `GET /notifications` iterates over: the collection filtered
by `user_email` and sorted by `created_at` descending. -/
def list_notifications_docs (st : Store) (email : String) : List NotificationDoc :=
  List.insertionSort notifGE (st.notification.filter (fun d => d.user_email == email))

/-- Rendering of a timestamp by `datetime.isoformat()`.  Modelled from the
spec: `created_at` is "rendered as an ISO-8601 string"; the rendering is an
injective but otherwise uninterpreted text form of the modelled timestamp. -/
def isoformat (t : Nat) : String := toString t

/-- Serialization of one stored notification into a `NotificationItem`, with
the defaulting `.get` reads of `list_notifications`. -/
def serializeNotification (d : NotificationDoc) : NotificationItem :=
  ⟨toString d.oid, d.title.getD "", d.body.getD "", d.read.getD false,
   d.created_at.map isoformat⟩

/-- `GET /notifications` from `src/main.py`: 500 when the handle is absent,
otherwise every matching document serialized in descending `created_at`
order.  No user-existence check. -/
def list_notifications (db : Option Store) (email : String) :
    Except HTTPError (List NotificationItem) :=
  match db with
  | none => .error ⟨500, "Database not available"⟩
  | some st => .ok ((list_notifications_docs st email).map serializeNotification)

/-- The per-document effect of
`update_many({"user_email": e, "read": False}, {"$set": {"read": True}})`:
only documents whose `read` field equals `False` match the filter. -/
def markRead (email : String) (d : NotificationDoc) : NotificationDoc :=
  if d.user_email = email ∧ d.read = some false then { d with read := some true } else d

/-- `POST /notifications/mark-all-read` from `src/main.py`: 500 when the
handle is absent, otherwise bulk-update and answer `{status: "ok"}`
unconditionally. -/
def mark_all_read (db : Option Store) (data : MarkAllReadRequest) :
    Except HTTPError StatusResponse × Option Store :=
  match db with
  | none => (.error ⟨500, "Database not available"⟩, none)
  | some st =>
    (.ok ⟨"ok"⟩, some { st with notification := st.notification.map (markRead data.email) })

/-! ### The `GET /test` diagnostics endpoint -/

/-- What the diagnostics endpoint can observe of the raw database handle:
the optional `name` attribute, and `list_collection_names()` which either
returns names or raises an exception carried as its message text. -/
structure DBHandle where
  name : Option String
  collections : Except String (List String)

/-- The diagnostic object assembled by `test_database`. -/
structure TestResponse where
  backend : String
  database : String
  database_url : Option String
  database_name : Option String
  connection_status : String
  collections : List String

/-- Python string slicing `s[:n]` by characters. -/
def takeChars (n : Nat) (s : String) : String := String.mk (s.data.take n)

/-- `GET /test` from `src/main.py`: builds the diagnostic object, catching a
`list_collection_names` exception into a truncated `database` field, keeping
at most 10 collection names, and finally overwriting the two env-var fields
from `DATABASE_URL` / `DATABASE_NAME` presence. -/
def test_database (db : Option DBHandle) (urlSet nameSet : Bool) : TestResponse :=
  let r0 : TestResponse :=
    ⟨"✅ Running", "❌ Not Available", none, none, "Not Connected", []⟩
  let r1 :=
    match db with
    | some h =>
      let r := { r0 with
        database := "✅ Available"
        database_url := some "✅ Configured"
        database_name := some (h.name.getD "✅ Connected")
        connection_status := "Connected" }
      match h.collections with
      | .ok cols =>
        { r with collections := cols.take 10, database := "✅ Connected & Working" }
      | .error e =>
        { r with database := "⚠️  Connected but Error: " ++ takeChars 50 e }
    | none => { r0 with database := "⚠️  Available but not initialized" }
  { r1 with
    database_url := some (if urlSet then "✅ Set" else "❌ Not Set")
    database_name := some (if nameSet then "✅ Set" else "❌ Not Set") }

/-! ### Helper lemmas -/

/-- An email absent from the collection makes `find_one` miss. -/
lemma find?_email_none (l : List UserDoc) (e : String)
    (h : ∀ u ∈ l, u.email ≠ e) : l.find? (fun u => u.email == e) = none := by
  rw [List.find?_eq_none]
  intro u hu
  simpa using h u hu

/-- An email present in the collection makes `find_one` hit. -/
lemma find?_email_some (l : List UserDoc) (e : String)
    (h : ∃ u ∈ l, u.email = e) :
    ∃ u0, l.find? (fun u => u.email == e) = some u0 := by
  obtain ⟨u, hu, hue⟩ := h
  have hsome : (l.find? (fun u => u.email == e)).isSome := by
    rw [List.find?_isSome]
    exact ⟨u, hu, by simp [hue]⟩
  exact Option.isSome_iff_exists.mp hsome

end Backend

namespace Backend

/-- C1: registering an already-present email fails with 400
"Email already registered", leaves the store untouched, and preserves the
count of users carrying that email (in particular a count of 1 stays 1). -/
theorem register_duplicate_email_400 (st : Store) (n e pw : String)
    (hex : ∃ u ∈ st.authuser, u.email = e) :
    register (some st) ⟨n, e, pw⟩ =
      (.error ⟨400, "Email already registered"⟩, some st) ∧
    (∀ st', (register (some st) ⟨n, e, pw⟩).2 = some st' →
      st'.authuser.countP (fun u => u.email == e) =
        st.authuser.countP (fun u => u.email == e)) ∧
    (st.authuser.countP (fun u => u.email == e) = 1 →
      ∀ st', (register (some st) ⟨n, e, pw⟩).2 = some st' →
        st'.authuser.countP (fun u => u.email == e) = 1) := by
  obtain ⟨u0, hu0⟩ := find?_email_some st.authuser e hex
  have hreg : register (some st) ⟨n, e, pw⟩ =
      (.error ⟨400, "Email already registered"⟩, some st) := by
    simp [register, hu0]
  refine ⟨hreg, ?_, ?_⟩
  · intro st' hst'
    rw [hreg] at hst'
    simp at hst'
    rw [← hst']
  · intro hcount st' hst'
    rw [hreg] at hst'
    simp at hst'
    rw [← hst']
    exact hcount

/-- C3: registering a fresh email inserts exactly one user document whose
`password_hash` is the SHA-256 hex digest of the UTF-8 encoded password and
whose `avatar_url` is null, and echoes `{name, email, avatar_url: null}`. -/
theorem register_new_email_inserts (st : Store) (n e pw : String)
    (hnone : ∀ u ∈ st.authuser, u.email ≠ e) :
    register (some st) ⟨n, e, pw⟩ =
      (.ok ⟨n, e, none⟩,
       some ⟨st.nextId + 1,
             st.authuser ++ [⟨st.nextId, n, e, sha256hex (utf8Encode pw), none⟩],
             st.notification⟩) := by
  have hfind := find?_email_none st.authuser e hnone
  simp [register, hfind, hash_password]

/-- C4: login returns 401 exactly when no user matches the email or the
stored hash differs from the SHA-256 hex digest of the supplied password;
otherwise it returns the stored record's name, email and avatar_url. -/
theorem login_401_iff (st : Store) (e pw : String) :
    (login (some st) ⟨e, pw⟩ = .error ⟨401, "Invalid credentials"⟩ ↔
      ((∀ u ∈ st.authuser, u.email ≠ e) ∨
       ∃ u, st.authuser.find? (fun v => v.email == e) = some u ∧
         u.password_hash ≠ hash_password pw)) ∧
    (∀ u, st.authuser.find? (fun v => v.email == e) = some u →
      u.password_hash = hash_password pw →
      login (some st) ⟨e, pw⟩ = .ok ⟨u.name, u.email, u.avatar_url⟩) := by
  cases hfind : st.authuser.find? (fun v => v.email == e) with
  | none =>
    have hlog : login (some st) ⟨e, pw⟩ = .error ⟨401, "Invalid credentials"⟩ := by
      simp [login, hfind]
    refine ⟨?_, ?_⟩
    · rw [hlog]
      refine ⟨fun _ => Or.inl fun u hu => ?_, fun _ => rfl⟩
      simpa using List.find?_eq_none.mp hfind u hu
    · intro u hu
      exact absurd hu (by simp)
  | some u =>
    have humem : u ∈ st.authuser := List.mem_of_find?_eq_some hfind
    have hue : u.email = e := by
      simpa using List.find?_some hfind
    by_cases hpw : u.password_hash = hash_password pw
    · have hlog : login (some st) ⟨e, pw⟩ = .ok ⟨u.name, u.email, u.avatar_url⟩ := by
        simp [login, hfind, hpw]
      refine ⟨?_, ?_⟩
      · rw [hlog]
        constructor
        · intro h
          exact absurd h (by simp)
        · rintro (h | ⟨u', hu', hne⟩)
          · exact absurd hue (h u humem)
          · cases Option.some.inj hu'
            exact absurd hpw hne
      · intro u' hu' _
        cases Option.some.inj hu'
        exact hlog
    · have hbeq : (u.password_hash == hash_password pw) = false := by
        simpa using hpw
      have hlog : login (some st) ⟨e, pw⟩ = .error ⟨401, "Invalid credentials"⟩ := by
        simp [login, hfind, hbeq]
      refine ⟨?_, ?_⟩
      · rw [hlog]
        exact ⟨fun _ => Or.inr ⟨u, rfl, hpw⟩, fun _ => rfl⟩
      · intro u' hu' hpw'
        cases Option.some.inj hu'
        exact absurd hpw' hpw

/-- C5: the duplicate check compares emails as exact strings, so two distinct
emails (in particular two differing only in character case) never shadow one
another: after registering the first, registering the second still succeeds
rather than returning 400. -/
theorem register_exact_match_case_sensitive (st : Store)
    (n1 n2 e1 e2 pw1 pw2 : String) (hne : e1 ≠ e2)
    (h1 : ∀ u ∈ st.authuser, u.email ≠ e1)
    (h2 : ∀ u ∈ st.authuser, u.email ≠ e2) :
    (register (some st) ⟨n1, e1, pw1⟩).1 = .ok ⟨n1, e1, none⟩ ∧
    ∀ st1, (register (some st) ⟨n1, e1, pw1⟩).2 = some st1 →
      (register (some st1) ⟨n2, e2, pw2⟩).1 = .ok ⟨n2, e2, none⟩ := by
  have hreg1 := register_new_email_inserts st n1 e1 pw1 h1
  constructor
  · rw [hreg1]
  · intro st1 hst1
    rw [hreg1] at hst1
    simp at hst1
    have h2' : ∀ u ∈ st1.authuser, u.email ≠ e2 := by
      intro u hu
      rw [← hst1] at hu
      simp at hu
      rcases hu with hu | hu
      · exact h2 u hu
      · rw [hu]
        exact fun h => hne h
    have := register_new_email_inserts st1 n2 e2 pw2 h2'
    rw [this]

/-- One bulk-update pass leaves nothing matching its own filter, so a second
pass is the identity on each document. -/
lemma markRead_idem (e : String) (d : NotificationDoc) :
    markRead e (markRead e d) = markRead e d := by
  by_cases h : d.user_email = e ∧ d.read = some false
  · obtain ⟨h1, h2⟩ := h
    simp [markRead, h1, h2]
  · have hd : markRead e d = d := by rw [markRead, if_neg h]
    rw [hd, hd]

/-- C7: `mark-all-read` answers `{status: "ok"}` unconditionally; after one
call every notification of the user (each carries a boolean `read`, as all
system-created documents do) reads `true`; and a second call returns the
same answer and changes no document. -/
theorem mark_all_read_idempotent (st : Store) (e : String)
    (hread : ∀ d ∈ st.notification, d.user_email = e → (d.read).isSome) :
    mark_all_read (some st) ⟨e⟩ =
      (.ok ⟨"ok"⟩, some { st with notification := st.notification.map (markRead e) }) ∧
    (∀ d ∈ st.notification.map (markRead e), d.user_email = e → d.read = some true) ∧
    (∀ st1, (mark_all_read (some st) ⟨e⟩).2 = some st1 →
      mark_all_read (some st1) ⟨e⟩ = (.ok ⟨"ok"⟩, some st1)) := by
  refine ⟨rfl, ?_, ?_⟩
  · intro d hd hde
    obtain ⟨d0, hd0, rfl⟩ := List.mem_map.mp hd
    by_cases h : d0.user_email = e ∧ d0.read = some false
    · obtain ⟨h1, h2⟩ := h
      simp [markRead, h1, h2]
    · have hdd : markRead e d0 = d0 := by rw [markRead, if_neg h]
      rw [hdd] at hde ⊢
      have hsome := hread d0 hd0 hde
      obtain ⟨b, hb⟩ := Option.isSome_iff_exists.mp hsome
      cases b with
      | false => exact absurd ⟨hde, hb⟩ h
      | true => exact hb
  · intro st1 hst1
    have hsome : some { st with notification := st.notification.map (markRead e) } =
        some st1 := hst1
    cases Option.some.inj hsome
    have hmm : (st.notification.map (markRead e)).map (markRead e) =
        st.notification.map (markRead e) := by
      rw [List.map_map]
      exact List.map_congr_left fun d _ => markRead_idem e d
    show (Except.ok (⟨"ok"⟩ : StatusResponse),
          some { st with notification := (st.notification.map (markRead e)).map (markRead e) }) =
        (Except.ok (⟨"ok"⟩ : StatusResponse),
          some { st with notification := st.notification.map (markRead e) })
    rw [hmm]

/-- C8: the listing consults only the notification collection: for an email
with no matching notification it returns the empty list (never an error),
whatever the user collection holds. -/
theorem list_notifications_unknown_email_empty (st : Store)
    (users : List UserDoc) (e : String)
    (h : ∀ d ∈ st.notification, d.user_email ≠ e) :
    list_notifications (some { st with authuser := users }) e = .ok [] := by
  have hfil : st.notification.filter (fun d => d.user_email == e) = [] := by
    rw [List.filter_eq_nil_iff]
    intro d hd
    simpa using h d hd
  simp [list_notifications, list_notifications_docs, hfil, List.insertionSort]

/-- C9: the diagnostics endpoint always returns a diagnostic object: the
collection list it reports never exceeds 10 names, and an exception during
collection enumeration surfaces as a `database` string holding at most the
first 50 characters of the exception text. -/
theorem test_database_safe (db : Option DBHandle) (urlSet nameSet : Bool) :
    (test_database db urlSet nameSet).backend = "✅ Running" ∧
    (test_database db urlSet nameSet).collections.length ≤ 10 ∧
    ∀ h e, db = some h → h.collections = .error e →
      (test_database db urlSet nameSet).database =
        "⚠️  Connected but Error: " ++ takeChars 50 e ∧
      (takeChars 50 e).length ≤ 50 := by
  have hlen : ∀ e : String, (takeChars 50 e).length ≤ 50 := by
    intro e
    show (e.data.take 50).length ≤ 50
    rw [List.length_take]
    exact Nat.min_le_left _ _
  cases db with
  | none =>
    refine ⟨by simp [test_database], by simp [test_database], ?_⟩
    intro h e hh
    exact absurd hh (by simp)
  | some h =>
    cases hcol : h.collections with
    | ok cols =>
      refine ⟨by simp [test_database, hcol], ?_, ?_⟩
      · have : (test_database (some h) urlSet nameSet).collections = cols.take 10 := by
          simp [test_database, hcol]
        rw [this, List.length_take]
        exact Nat.min_le_left _ _
      · intro h' e hh' he'
        cases Option.some.inj hh'
        rw [hcol] at he'
        exact absurd he' (by simp)
    | error e0 =>
      refine ⟨by simp [test_database, hcol], by simp [test_database, hcol], ?_⟩
      intro h' e hh' he'
      cases Option.some.inj hh'
      rw [hcol] at he'
      cases he'
      exact ⟨by simp [test_database, hcol], hlen e0⟩

/-- C6: creating a notification for an email with no matching user fails with
404 "User not found" and leaves the store — in particular the notification
collection — unchanged. -/
theorem create_notification_unknown_404 (st : Store) (now : Nat)
    (e ti bo : String) (h : ∀ u ∈ st.authuser, u.email ≠ e) :
    create_notification (some st) now ⟨e, ti, bo⟩ =
      (.error ⟨404, "User not found"⟩, some st) := by
  have hfind := find?_email_none st.authuser e h
  simp [create_notification, hfind]

/-- The descending comparison is reflexive. -/
lemma notifGE_refl (d : NotificationDoc) : notifGE d d := by
  unfold notifGE createdAtLe
  rcases d.created_at with _ | m
  · rfl
  · simp

/-- In a list sorted by `notifGE`, an element strictly above another (the
other does not compare back) occurs at a strictly earlier position. -/
lemma sorted_exists_indices {l : List NotificationDoc} (hs : l.Sorted notifGE)
    {x y : NotificationDoc} (hx : x ∈ l) (hy : y ∈ l) (hxy : ¬ notifGE y x) :
    ∃ i j : Fin l.length, i < j ∧ l.get i = x ∧ l.get j = y := by
  obtain ⟨i, hi⟩ := List.mem_iff_get.mp hx
  obtain ⟨j, hj⟩ := List.mem_iff_get.mp hy
  rcases lt_trichotomy i j with h | h | h
  · exact ⟨i, j, h, hi, hj⟩
  · exfalso
    apply hxy
    have hxyeq : x = y := by rw [← hi, ← hj, h]
    rw [hxyeq]
    exact notifGE_refl y
  · exfalso
    apply hxy
    have := List.pairwise_iff_get.mp hs j i h
    rw [hj, hi] at this
    exact this

/-- C2: with an existing user, each insert stamps the current instant into
`created_at`; after inserting at `t1` and then at `t2 > t1`, the listing
places the `t2` notification strictly before the `t1` one. -/
theorem notifications_created_at_desc (st : Store) (e : String) (u0 : UserDoc)
    (hu : st.authuser.find? (fun u => u.email == e) = some u0)
    (t1 t2 : Nat) (hlt : t1 < t2) (ti1 bo1 ti2 bo2 : String)
    (d1 d2 : NotificationDoc) (st1 st2 : Store)
    (hd1 : d1 = ⟨st.nextId, e, some ti1, some bo1, some false, some t1⟩)
    (hd2 : d2 = ⟨st.nextId + 1, e, some ti2, some bo2, some false, some t2⟩)
    (hst1 : st1 = ⟨st.nextId + 1, st.authuser, st.notification ++ [d1]⟩)
    (hst2 : st2 = ⟨st.nextId + 2, st.authuser, st1.notification ++ [d2]⟩) :
    create_notification (some st) t1 ⟨e, ti1, bo1⟩ =
      (.ok ⟨toString st.nextId, "created"⟩, some st1) ∧
    create_notification (some st1) t2 ⟨e, ti2, bo2⟩ =
      (.ok ⟨toString (st.nextId + 1), "created"⟩, some st2) ∧
    ∃ i j : Fin (list_notifications_docs st2 e).length, i < j ∧
      (list_notifications_docs st2 e).get i = d2 ∧
      (list_notifications_docs st2 e).get j = d1 := by
  subst hd1 hd2 hst1 hst2
  refine ⟨?_, ?_, ?_⟩
  · simp [create_notification, hu]
  · simp only [create_notification, hu]
  · have hsorted := List.sorted_insertionSort notifGE
      (((st.notification ++
            [(⟨st.nextId, e, some ti1, some bo1, some false, some t1⟩ : NotificationDoc)]) ++
          [(⟨st.nextId + 1, e, some ti2, some bo2, some false, some t2⟩ : NotificationDoc)]).filter
        (fun d => d.user_email == e))
    have hperm := List.perm_insertionSort notifGE
      (((st.notification ++
            [(⟨st.nextId, e, some ti1, some bo1, some false, some t1⟩ : NotificationDoc)]) ++
          [(⟨st.nextId + 1, e, some ti2, some bo2, some false, some t2⟩ : NotificationDoc)]).filter
        (fun d => d.user_email == e))
    have hmem1 : (⟨st.nextId, e, some ti1, some bo1, some false, some t1⟩ : NotificationDoc) ∈
        list_notifications_docs
          ⟨st.nextId + 2, st.authuser,
            (st.notification ++ [⟨st.nextId, e, some ti1, some bo1, some false, some t1⟩]) ++
              [⟨st.nextId + 1, e, some ti2, some bo2, some false, some t2⟩]⟩ e := by
      rw [list_notifications_docs]
      rw [hperm.mem_iff]
      rw [List.mem_filter]
      simp
    have hmem2 : (⟨st.nextId + 1, e, some ti2, some bo2, some false, some t2⟩ : NotificationDoc) ∈
        list_notifications_docs
          ⟨st.nextId + 2, st.authuser,
            (st.notification ++ [⟨st.nextId, e, some ti1, some bo1, some false, some t1⟩]) ++
              [⟨st.nextId + 1, e, some ti2, some bo2, some false, some t2⟩]⟩ e := by
      rw [list_notifications_docs]
      rw [hperm.mem_iff]
      rw [List.mem_filter]
      simp
    have hgt : ¬ notifGE
        (⟨st.nextId, e, some ti1, some bo1, some false, some t1⟩ : NotificationDoc)
        (⟨st.nextId + 1, e, some ti2, some bo2, some false, some t2⟩ : NotificationDoc) := by
      simp only [notifGE, createdAtLe]
      simp
      omega
    exact sorted_exists_indices hsorted hmem2 hmem1 hgt

/-- C10: the listing never errors on a present handle, and every returned
item is the default-completed serialization of a stored document of that
user: string form of the document identifier, empty title and body when
absent, `read=false` when absent, `created_at` null when absent. -/
theorem list_notifications_defaults (st : Store) (e : String) :
    (∀ err, list_notifications (some st) e ≠ .error err) ∧
    ∀ items, list_notifications (some st) e = .ok items →
      ∀ it ∈ items, ∃ d, d ∈ st.notification ∧ d.user_email = e ∧
        it.id = toString d.oid ∧ it.title = d.title.getD "" ∧
        it.body = d.body.getD "" ∧ it.read = d.read.getD false ∧
        it.created_at = d.created_at.map isoformat := by
  constructor
  · intro err h
    simp [list_notifications] at h
  · intro items hitems it hit
    have heq : (list_notifications_docs st e).map serializeNotification = items := by
      have h2 : Except.ok (ε := HTTPError)
          ((list_notifications_docs st e).map serializeNotification) = .ok items := hitems
      exact Except.ok.inj h2
    rw [← heq] at hit
    obtain ⟨d, hd, rfl⟩ := List.mem_map.mp hit
    have hdmem : d ∈ st.notification.filter (fun d => d.user_email == e) :=
      (List.perm_insertionSort notifGE _).mem_iff.mp hd
    obtain ⟨hmem, hpred⟩ := List.mem_filter.mp hdmem
    exact ⟨d, hmem, by simpa using hpred, rfl, rfl, rfl, rfl, rfl⟩

/-! ### Concrete fixtures used by the witness instances -/

/-- A user as `register` stores it. -/
def wUser : UserDoc := ⟨0, "Ann", "ann@x.com", hash_password "pw1", none⟩

/-- A store holding exactly that user. -/
def wStore : Store := ⟨1, [wUser], []⟩

/-- A notification as `create_notification` stores it. -/
def wD1 : NotificationDoc := ⟨1, "ann@x.com", some "t1", some "b1", some false, some 3⟩

/-- A later notification of the same user. -/
def wD2 : NotificationDoc := ⟨2, "ann@x.com", some "t2", some "b2", some false, some 8⟩

/-- `wStore` after inserting `wD1`. -/
def wSt1 : Store := ⟨2, [wUser], [wD1]⟩

/-- `wSt1` after inserting `wD2`. -/
def wSt2 : Store := ⟨3, [wUser], [wD1, wD2]⟩

/-- An unread notification with all fields present. -/
def wN0 : NotificationDoc := ⟨0, "ann@x.com", some "t", some "b", some false, some 5⟩

/-- A notification without title, body or timestamp. -/
def wN1 : NotificationDoc := ⟨1, "ann@x.com", none, none, some true, none⟩

/-- A stored notification missing every optional field. -/
def wN2 : NotificationDoc := ⟨7, "x@y.z", none, none, none, none⟩

/-- A store with two notifications and no users. -/
def wNStore : Store := ⟨2, [], [wN0, wN1]⟩

/-- Witness for C1 at a one-user store. -/
theorem register_duplicate_email_400_w :
    register (some wStore) ⟨"Bob", "ann@x.com", "pw2"⟩ =
      (.error ⟨400, "Email already registered"⟩, some wStore) :=
  (register_duplicate_email_400 wStore "Bob" "ann@x.com" "pw2"
    ⟨wUser, by simp [wStore], rfl⟩).1

/-- Witness for C2: both inserts succeed and stamp their instants. -/
theorem notifications_created_at_desc_w :
    create_notification (some wStore) 3 ⟨"ann@x.com", "t1", "b1"⟩ =
      (.ok ⟨toString (1 : Nat), "created"⟩, some wSt1) ∧
    create_notification (some wSt1) 8 ⟨"ann@x.com", "t2", "b2"⟩ =
      (.ok ⟨toString (2 : Nat), "created"⟩, some wSt2) := by
  have h := notifications_created_at_desc wStore "ann@x.com" wUser rfl 3 8 (by omega)
    "t1" "b1" "t2" "b2" wD1 wD2 wSt1 wSt2 rfl rfl rfl rfl
  exact ⟨h.1, h.2.1⟩

/-- Witness for C3 at the empty store. -/
theorem register_new_email_inserts_w :
    register (some ⟨0, [], []⟩) ⟨"Ann", "ann@x.com", "pw1"⟩ =
      (.ok ⟨"Ann", "ann@x.com", none⟩,
       some ⟨1, [⟨0, "Ann", "ann@x.com", sha256hex (utf8Encode "pw1"), none⟩], []⟩) :=
  register_new_email_inserts ⟨0, [], []⟩ "Ann" "ann@x.com" "pw1" (by simp)

/-- Witness for C4: correct credentials return the stored record. -/
theorem login_401_iff_w :
    login (some wStore) ⟨"ann@x.com", "pw1"⟩ = .ok ⟨"Ann", "ann@x.com", none⟩ :=
  (login_401_iff wStore "ann@x.com" "pw1").2 wUser rfl rfl

/-- Witness for C5: `Ann@x.com` registers fine next to `ann@x.com`. -/
theorem register_exact_match_case_sensitive_w :
    (register (some wStore) ⟨"Bea", "Ann@x.com", "pw2"⟩).1 =
      .ok ⟨"Bea", "Ann@x.com", none⟩ := by
  have h := register_exact_match_case_sensitive ⟨0, [], []⟩ "Ann" "Bea" "ann@x.com"
    "Ann@x.com" "pw1" "pw2" (by decide) (by simp) (by simp)
  exact h.2 wStore rfl

/-- Witness for C6: unknown email, store untouched. -/
theorem create_notification_unknown_404_w :
    create_notification (some wStore) 7 ⟨"bob@x.com", "t", "b"⟩ =
      (.error ⟨404, "User not found"⟩, some wStore) :=
  create_notification_unknown_404 wStore 7 "bob@x.com" "t" "b" (by decide)

/-- Witness for C7 at a two-notification store. -/
theorem mark_all_read_idempotent_w :
    mark_all_read (some wNStore) ⟨"ann@x.com"⟩ =
      (.ok ⟨"ok"⟩,
       some { wNStore with
              notification := wNStore.notification.map (markRead "ann@x.com") }) :=
  (mark_all_read_idempotent wNStore "ann@x.com" (by decide)).1

/-- Witness for C8: unmatched email lists empty. -/
theorem list_notifications_unknown_email_empty_w :
    list_notifications (some ⟨3, [], [wN0]⟩) "carl@x.com" = .ok [] :=
  list_notifications_unknown_email_empty ⟨3, [], [wN0]⟩ [] "carl@x.com" (by decide)

/-- Witness for C9 on a handle whose enumeration raises. -/
theorem test_database_safe_w :
    (test_database
        (some ⟨some "appdb",
          .error "boom: a very long exception message that keeps going and going"⟩)
        true false).database =
      "⚠️  Connected but Error: " ++
        takeChars 50 "boom: a very long exception message that keeps going and going" ∧
    (takeChars 50 "boom: a very long exception message that keeps going and going").length ≤
      50 :=
  (test_database_safe
      (some ⟨some "appdb",
        .error "boom: a very long exception message that keeps going and going"⟩)
      true false).2.2
    ⟨some "appdb", .error "boom: a very long exception message that keeps going and going"⟩
    "boom: a very long exception message that keeps going and going" rfl rfl

/-- Witness for C10 at a store whose single document misses every optional
field. -/
theorem list_notifications_defaults_w :
    list_notifications (some ⟨9, [], [wN2]⟩) "x@y.z" ≠
      .error ⟨500, "Database not available"⟩ :=
  (list_notifications_defaults ⟨9, [], [wN2]⟩ "x@y.z").1 ⟨500, "Database not available"⟩

end Backend
